import Mathlib

/-!
Shallow embedding of `_device.py` (Cloud Print Logo Certification tool,
class `Device`) together with theorems settling the claims about it.

Modelling conventions:
- Python strings are Lean `String`; the Python substring test `sub in s`
  is `pyIn sub s` (explicit character-list infix search).
- JSON values decoded by the external codec are the inductive `JVal`
  (no number constructor: none of the code under scrutiny touches one).
- A Python instance attribute that may not have been assigned yet is an
  `Attr α`: `Attr.unset` means the attribute does not exist, so reading
  it raises `AttributeError`; `Attr.val a` means it holds `a`.
- Raised exceptions are surfaced as `Except` errors (`PyErr`);
  normal returns are `Except.ok`.
- The external collaborators (`Transport`, `JsonParser`,
  `CloudPrintMgr`) are not part of the repository source, so they enter
  as oracle parameters; where a claim depends on their behaviour they
  are modelled from the spec and marked as such.
- Network traffic is observable: functions return, along with their
  result, the number of HTTP requests they issued.
-/

/-- Decides whether the character list `sub` occurs at the head of `l`. -/
def matchesAt : List Char → List Char → Bool
  | [], _ => true
  | _ :: _, [] => false
  | a :: as, b :: bs => a == b && matchesAt as bs

/-- Decides whether the character list `sub` occurs anywhere inside `l`. -/
def hasSubList (sub : List Char) : List Char → Bool
  | [] => matchesAt sub []
  | b :: bs => matchesAt sub (b :: bs) || hasSubList sub bs

/-- Python's substring containment test `sub in s` on strings. -/
def pyIn (sub s : String) : Bool :=
  hasSubList sub.toList s.toList

/-- JSON values as produced by the external JSON codec. -/
inductive JVal where
  | null
  | bool (b : Bool)
  | str (s : String)
  | arr (elems : List JVal)
  | obj (fields : List (String × JVal))

/-- Python truthiness of a decoded JSON value (`None`, `False`, `""`,
`[]`, `{}` are falsy). -/
def pyTruthy : JVal → Bool
  | JVal.null => false
  | JVal.bool b => b
  | JVal.str s => !s.isEmpty
  | JVal.arr l => !l.isEmpty
  | JVal.obj l => !l.isEmpty

/-- Key lookup in a decoded JSON object (Python `d[k]` when present). -/
def jlookup (fields : List (String × JVal)) (k : String) : Option JVal :=
  (fields.find? (fun p => p.1 == k)).map (fun p => p.2)

/-- Key lookup defaulting to `null` for an absent key. -/
def jlookupD (fields : List (String × JVal)) (k : String) : JVal :=
  (jlookup fields k).getD JVal.null

/-- Python dict assignment `d[k] = v`: overwrite in place when the key
exists, append otherwise. -/
def dictSet (d : List (String × JVal)) (k : String) (v : JVal) :
    List (String × JVal) :=
  if d.any (fun p => p.1 == k) then
    d.map (fun p => if p.1 == k then (k, v) else p)
  else d ++ [(k, v)]

/-- A Python instance attribute slot: either never assigned (reading it
raises `AttributeError`) or assigned a value. -/
inductive Attr (α : Type) where
  | unset
  | val (a : α)

/-- Python exceptions that the embedded code can raise. -/
inductive PyErr where
  | attributeError
  | keyError
  | indexError
  | typeError
deriving DecidableEq

/-- The attributes of a `Device` instance that the registration methods
read or write. `__init__` assigns none of these four token/id slots;
`cdd` is initialised to the empty dict. -/
structure Device where
  claim_token : Attr JVal
  automated_claim_url : Attr JVal
  claim_url : Attr JVal
  id : Attr JVal
  cdd : List (String × JVal)

/-- A `Device` as `__init__` leaves it: `claim_token`,
`automated_claim_url`, `claim_url` and `id` are never assigned there,
and `self.cdd = {}`. -/
def freshDevice : Device :=
  { claim_token := Attr.unset
    automated_claim_url := Attr.unset
    claim_url := Attr.unset
    id := Attr.unset
    cdd := [] }

/-- Assignments performed by the success branch of
`GetPrivetClaimToken`: `self.claim_token`, `self.automated_claim_url`
and `self.claim_url` are set from `jparser.GetValue` applied to the
response body. `gV` is the external `GetValue` oracle (`JVal.null`
models Python `None` for an absent key). -/
def setClaimFields (d : Device) (gV : String → String → JVal)
    (data : String) : Device :=
  { d with
    claim_token := Attr.val (gV data "token")
    automated_claim_url := Attr.val (gV data "automated_claim_url")
    claim_url := Attr.val (gV data "claim_url") }

/-- The `while counter < max_cycles` loop of `GetPrivetClaimToken`
(`max_cycles = 5`). `resp n` is the body of the `n`-th HTTP response
delivered by the transport, `counter` the Python `counter`, `reqIdx`
the number of requests issued so far. The loop body tests the raw body
with Python `in`: first for `"token"`, then for `"error"`, and inside
that for `"pending_user_action"` (only this branch increments
`counter`); a body matching none of these repeats the loop unchanged.
`fuel` bounds the number of iterations we unroll; `none` means the
loop is still running when the fuel runs out. The result carries the
final device, the returned boolean, and the number of requests made. -/
def claimTokenLoop (d : Device) (resp : Nat → String)
    (gV : String → String → JVal) :
    Nat → Nat → Nat → Option (Device × Bool × Nat)
  | 0, _, _ => none
  | fuel + 1, counter, reqIdx =>
    if counter < 5 then
      if pyIn "token" (resp reqIdx) then
        some (setClaimFields d gV (resp reqIdx), true, reqIdx + 1)
      else if pyIn "error" (resp reqIdx) then
        if pyIn "pending_user_action" (resp reqIdx) then
          claimTokenLoop d resp gV fuel (counter + 1) (reqIdx + 1)
        else some (d, false, reqIdx + 1)
      else claimTokenLoop d resp gV fuel counter (reqIdx + 1)
    else some (d, false, reqIdx)

/-- `Device.GetPrivetClaimToken` (`_device.py` lines 202-231): run the
polling loop from `counter = 0` with no requests issued yet. -/
def GetPrivetClaimToken (d : Device) (resp : Nat → String)
    (gV : String → String → JVal) (fuel : Nat) :
    Option (Device × Bool × Nat) :=
  claimTokenLoop d resp gV fuel 0 0

/-- The mock body the spec polls with. -/
def pendingBody : String := "\x7b\"error\":\"pending_user_action\"\x7d"

/-- An error body whose value happens to contain the characters
`token`, although no JSON field named `token` exists in it. -/
def tokenErrBody : String := "\x7b\"error\":\"token_expired\"\x7d"

/-- An HTTP response as the registration methods consume it.
Modelled from the spec: the external `JsonParser.Read` (JsonCodec
`Parse(body)` returning `{isJson, fields}`) is folded into the
response as `jsonFields` (`none` when the body is not JSON), and the
external `Transport.LogData` outcome (transport-layer success, per the
spec's `StartRegistration`) is the boolean `ok`. -/
structure HResp where
  jsonFields : Option (List (String × JVal))
  ok : Bool

/-- `Device.SendClaimToken` (`_device.py` lines 233-260). Reading
`self.claim_token` or `self.automated_claim_url` when the attribute
was never assigned raises `AttributeError`; an assigned falsy value
returns `False` before any request. Otherwise one request is issued
and, modelled from the spec ("a well-formed JSON response with a
false/absent success indicator is a definite failure"), the reply
succeeds exactly when it is JSON and its `success` field is truthy
(absent defaults to `null`, which is falsy). The result pairs the
returned boolean with the number of requests issued. -/
def SendClaimToken (d : Device) (resp : HResp) : Except PyErr (Bool × Nat) :=
  match d.claim_token with
  | Attr.unset => Except.error PyErr.attributeError
  | Attr.val ct =>
    if pyTruthy ct then
      match d.automated_claim_url with
      | Attr.unset => Except.error PyErr.attributeError
      | Attr.val acu =>
        if pyTruthy acu then
          match resp.jsonFields with
          | none => Except.ok (false, 1)
          | some fields =>
            if pyTruthy (jlookupD fields "success") then Except.ok (true, 1)
            else Except.ok (false, 1)
        else Except.ok (false, 0)
    else Except.ok (false, 0)

/-- `Device.FinishPrivetRegister` (`_device.py` lines 262-280): issue
the completion request unconditionally, then, when the reply is JSON,
scan its keys and assign `self.id` from every key containing the
substring `"device_id"`; finally return the `LogData` outcome. The
result carries the updated device, the returned boolean, and the
number of requests issued (always 1). -/
def FinishPrivetRegister (d : Device) (resp : HResp) :
    Device × Bool × Nat :=
  match resp.jsonFields with
  | none => (d, resp.ok, 1)
  | some fields =>
    (fields.foldl
      (fun acc kv =>
        if pyIn "device_id" kv.1 then { acc with id := Attr.val kv.2 }
        else acc)
      d,
     resp.ok, 1)

/-- `Device.UnRegister` (`_device.py` lines 282-306). Reading
`self.id` when the attribute was never assigned raises
`AttributeError`; an assigned falsy value (for example `None`, as a
previous successful `UnRegister` leaves it) logs a warning and
returns `False` with no request. Otherwise the delete request is
issued; `validate` is the outcome of the external
`jparser.Validate(response.data)` (JsonCodec `Validate(body) → bool`,
modelled from the spec): on success `self.id` is set to `None` and
`True` returned, on failure the device is unchanged and `False`
returned. The result carries the device, the boolean, and the number
of requests issued. -/
def UnRegister (d : Device) (validate : Bool) :
    Except PyErr (Device × Bool × Nat) :=
  match d.id with
  | Attr.unset => Except.error PyErr.attributeError
  | Attr.val idv =>
    if pyTruthy idv then
      if validate then
        Except.ok ({ d with id := Attr.val JVal.null }, true, 1)
      else Except.ok (d, false, 1)
    else Except.ok (d, false, 0)

/-- The first loop of `ParseCDD` (`_device.py` lines 164-169): iterate
the keys of the first printer record in order; the key
`"capabilities"` makes `self.cdd["caps"] = {}`, every other key is
copied into `self.cdd` verbatim. -/
def copyPrinterKeys (cdd : List (String × JVal))
    (p0f : List (String × JVal)) : List (String × JVal) :=
  p0f.foldl
    (fun acc kv =>
      if kv.1 == "capabilities" then dictSet acc "caps" (JVal.obj [])
      else dictSet acc kv.1 kv.2)
    cdd

/-- One assignment `self.cdd["caps"][k] = v` of the second loop of
`ParseCDD`: raises `KeyError` when `self.cdd` has no `"caps"` entry,
`TypeError` when that entry is not a dict. An error carries the
device's `cdd` dict as it stands when the exception is raised. -/
def setCap (cdd : List (String × JVal)) (k : String) (v : JVal) :
    Except (PyErr × List (String × JVal)) (List (String × JVal)) :=
  match jlookup cdd "caps" with
  | some (JVal.obj caps) =>
    Except.ok (dictSet cdd "caps" (JVal.obj (dictSet caps k v)))
  | some _ => Except.error (PyErr.typeError, cdd)
  | none => Except.error (PyErr.keyError, cdd)

/-- The second loop of `ParseCDD` (`_device.py` lines 173-174): copy
every entry of `printers[0]["capabilities"]["printer"]` into
`self.cdd["caps"]`. -/
def copyCaps (cdd : List (String × JVal)) :
    List (String × JVal) →
    Except (PyErr × List (String × JVal)) (List (String × JVal))
  | [] => Except.ok cdd
  | kv :: rest =>
    match setCap cdd kv.1 kv.2 with
    | Except.ok cdd2 => copyCaps cdd2 rest
    | Except.error e => Except.error e

/-- `Device.ParseCDD` (`_device.py` lines 151-175). `info` is the
decoded `self.info`: `none` models a falsy `self.info` (unset or
empty string), `some doc` a string the external `json.loads` decodes
to `doc`. `cdd0` is `self.cdd` on entry. A normal return yields the
boolean result and the final `self.cdd`; a raised exception carries
`self.cdd` as mutated so far. Branches:
empty info returns `False`; a document without a `"printers"` key
returns `False`; `printers[0]` on an empty list raises `IndexError`;
after the first copying loop, `printers[0]["capabilities"]` raises
`KeyError` when the sub-key is absent, and
`["capabilities"]["printer"]` likewise. Subscripting or iterating a
value of the wrong shape raises `TypeError` (in CPython the exact
exception class can differ, e.g. `KeyError 0` when `printers` is a
dict, but an exception is raised either way; no claim exercises those
inputs). A non-dict document without a `"printers"` member also just
returns `False` (Python `in` on a list or string). -/
def ParseCDD (info : Option JVal) (cdd0 : List (String × JVal)) :
    Except (PyErr × List (String × JVal)) (Bool × List (String × JVal)) :=
  match info with
  | none => Except.ok (false, cdd0)
  | some doc =>
    match doc with
    | JVal.obj fields =>
      match jlookup fields "printers" with
      | none => Except.ok (false, cdd0)
      | some (JVal.arr []) => Except.error (PyErr.indexError, cdd0)
      | some (JVal.arr (p0 :: _)) =>
        match p0 with
        | JVal.obj p0f =>
          match jlookup p0f "capabilities" with
          | none =>
            Except.error (PyErr.keyError, copyPrinterKeys cdd0 p0f)
          | some (JVal.obj capsf) =>
            match jlookup capsf "printer" with
            | none =>
              Except.error (PyErr.keyError, copyPrinterKeys cdd0 p0f)
            | some (JVal.obj prf) =>
              (copyCaps (copyPrinterKeys cdd0 p0f) prf).map
                (fun c => (true, c))
            | some _ =>
              Except.error (PyErr.typeError, copyPrinterKeys cdd0 p0f)
          | some _ =>
            Except.error (PyErr.typeError, copyPrinterKeys cdd0 p0f)
        | _ => Except.error (PyErr.typeError, cdd0)
      | some _ => Except.error (PyErr.typeError, cdd0)
    | JVal.arr l =>
      if l.any (fun v => match v with
                 | JVal.str s => s == "printers"
                 | _ => false) then
        Except.error (PyErr.typeError, cdd0)
      else Except.ok (false, cdd0)
    | JVal.str s =>
      if pyIn "printers" s then Except.error (PyErr.typeError, cdd0)
      else Except.ok (false, cdd0)
    | _ => Except.error (PyErr.typeError, cdd0)

/-- The management-console collaborator as five per-field oracles
(external `CloudPrintMgr`, not part of the source): `errQ k` is the
value returned by the `k`-th call of `GetPrinterErrorState`, and so
on. A result is `none` when the call returns a falsy value (Python
`False`, `''`, `{}`, `None`) and `some n` when it returns a truthy
value with identity `n`. -/
structure ConsoleOracle where
  errQ : Nat → Option Nat
  warnQ : Nat → Option Nat
  statQ : Nat → Option Nat
  msgQ : Nat → Option Nat
  detQ : Nat → Option Nat

/-- The five snapshot fields of the device together with how many
times each has been fetched from the console. -/
structure DetailsState where
  error_state : Option Nat
  warning_state : Option Nat
  status : Option Nat
  messages : Option Nat
  details : Option Nat
  errN : Nat
  warnN : Nat
  statN : Nat
  msgN : Nat
  detN : Nat

/-- One guarded fetch `if not field: field = mgr.Get...(name)`: a
truthy field is left alone, a falsy one is fetched (consuming the
next oracle answer). Returns the new field value and fetch count. -/
def fetch1 (q : Nat → Option Nat) (v : Option Nat) (n : Nat) :
    Option Nat × Nat :=
  if v.isSome then (v, n) else (q n, n + 1)

/-- One iteration of the `for i in range(-1, RETRY_COUNT)` loop of
`GetDeviceDetails` (`_device.py` lines 113-124): the five guarded
fetches in source order (error state, warning state, status,
messages, details). The `self.cd.page_id = None` line touches only
the external chromedriver and is omitted. -/
def detailsStep (c : ConsoleOracle) (s : DetailsState) : DetailsState :=
  { error_state := (fetch1 c.errQ s.error_state s.errN).1
    warning_state := (fetch1 c.warnQ s.warning_state s.warnN).1
    status := (fetch1 c.statQ s.status s.statN).1
    messages := (fetch1 c.msgQ s.messages s.msgN).1
    details := (fetch1 c.detQ s.details s.detN).1
    errN := (fetch1 c.errQ s.error_state s.errN).2
    warnN := (fetch1 c.warnQ s.warning_state s.warnN).2
    statN := (fetch1 c.statQ s.status s.statN).2
    msgN := (fetch1 c.msgQ s.messages s.msgN).2
    detN := (fetch1 c.detQ s.details s.detN).2 }

/-- The state after the resets at the head of `GetDeviceDetails`
(lines 107-111): all five fields set to `None`, nothing fetched. -/
def detailsInit : DetailsState :=
  { error_state := none, warning_state := none, status := none
    messages := none, details := none
    errN := 0, warnN := 0, statN := 0, msgN := 0, detN := 0 }

/-- `Device.GetDeviceDetails` (`_device.py` lines 98-124):
`RETRY_COUNT = 3` and `range(-1, RETRY_COUNT)` give exactly four
iterations of the batch; the method returns normally whatever is
populated. -/
def GetDeviceDetails (c : ConsoleOracle) : DetailsState :=
  detailsStep c (detailsStep c (detailsStep c (detailsStep c detailsInit)))

/-- Iterating one guarded fetch `k` times on a single field, starting
from a field value and fetch count. The five fields of `detailsStep`
evolve independently, so `GetDeviceDetails` projects onto five such
iterations. -/
def fieldIter (q : Nat → Option Nat) : Nat → Option Nat × Nat → Option Nat × Nat
  | 0, p => p
  | k + 1, p => fieldIter q k (fetch1 q p.1 p.2)

/-- A device whose claim token and automated claim url hold truthy
values, as a successful `GetPrivetClaimToken` leaves them. -/
def claimedDevice : Device :=
  { claim_token := Attr.val (JVal.str "ct")
    automated_claim_url := Attr.val (JVal.str "http://acu")
    claim_url := Attr.val (JVal.str "http://claim")
    id := Attr.unset
    cdd := [] }

/-- The decoded document whose first printer record has no
`"capabilities"` sub-key. -/
def missingCapsDoc : JVal :=
  JVal.obj [("printers", JVal.arr [JVal.obj [("name", JVal.str "X")]])]

/-- A console whose every query returns a falsy value. -/
def quietConsole : ConsoleOracle :=
  { errQ := fun _ => none, warnQ := fun _ => none, statQ := fun _ => none
    msgQ := fun _ => none, detQ := fun _ => none }

/-- A snapshot state whose error state is already populated. -/
def someState : DetailsState :=
  { error_state := some 7, warning_state := none, status := none
    messages := none, details := none
    errN := 1, warnN := 0, statN := 0, msgN := 0, detN := 0 }

/-!
Helper lemmas.
-/

lemma pyIn_token_pending : pyIn "token" pendingBody = false := by decide

lemma pyIn_error_pending : pyIn "error" pendingBody = true := by decide

lemma pyIn_pua_pending : pyIn "pending_user_action" pendingBody = true := by
  decide

lemma pyIn_token_blank : pyIn "token" "" = false := by decide

lemma pyIn_error_blank : pyIn "error" "" = false := by decide

/-- On a body containing neither `"token"` nor `"error"` the loop body
changes nothing but the request index, so the loop never exits,
whatever the fuel. -/
lemma claimTokenLoop_blank_stuck (d : Device) (gV : String → String → JVal) :
    ∀ fuel c r, c < 5 →
      claimTokenLoop d (fun _ => "") gV fuel c r = none := by
  intro fuel
  induction fuel with
  | zero =>
    intro c r _
    rfl
  | succ f ih =>
    intro c r hc
    simp only [claimTokenLoop, if_pos hc, pyIn_token_blank, pyIn_error_blank,
      Bool.false_eq_true, if_false]
    exact ih c (r + 1) hc

/-- When every response is the pending body, each iteration increments
`counter`, so from `counter = c` the loop returns `False` after
exactly `5 - c` further requests (given fuel to run them). -/
lemma claimTokenLoop_pending (d : Device) (resp : Nat → String)
    (gV : String → String → JVal) (hresp : ∀ n, resp n = pendingBody) :
    ∀ fuel c r, 5 - c < fuel →
      claimTokenLoop d resp gV fuel c r = some (d, false, r + (5 - c)) := by
  intro fuel
  induction fuel with
  | zero =>
    intro c r h0
    exact absurd h0 (Nat.not_lt_zero _)
  | succ f ih =>
    intro c r hlt
    by_cases hc : c < 5
    · simp only [claimTokenLoop, if_pos hc, hresp r, pyIn_token_pending,
        pyIn_error_pending, pyIn_pua_pending, Bool.false_eq_true, if_false,
        if_true]
      rw [ih (c + 1) (r + 1) (by omega)]
      have harith : r + 1 + (5 - (c + 1)) = r + (5 - c) := by omega
      rw [harith]
    · have hc5 : 5 - c = 0 := by omega
      simp only [claimTokenLoop, if_neg hc, hc5, Nat.add_zero]

/-- A populated (truthy) field is left untouched by the guarded fetch. -/
lemma fetch1_isSome (q : Nat → Option Nat) (v : Option Nat) (n : Nat)
    (h : v.isSome = true) : fetch1 q v n = (v, n) := by
  simp [fetch1, h]

/-- One guarded fetch consumes at most one oracle answer. -/
lemma fetch1_snd_le (q : Nat → Option Nat) (v : Option Nat) (n : Nat) :
    (fetch1 q v n).2 ≤ n + 1 := by
  simp only [fetch1]
  split <;> simp

/-- Iterating the guarded fetch `k` times consumes at most `k` answers. -/
lemma fieldIter_snd_le (q : Nat → Option Nat) :
    ∀ k p, (fieldIter q k p).2 ≤ p.2 + k := by
  intro k
  induction k with
  | zero =>
    intro p
    simp [fieldIter]
  | succ m ih =>
    intro p
    have h1 : (fieldIter q (m + 1) p).2 = (fieldIter q m (fetch1 q p.1 p.2)).2 := rfl
    have h2 := ih (fetch1 q p.1 p.2)
    have h3 := fetch1_snd_le q p.1 p.2
    omega

/-- If the oracle only ever answers falsy, the field stays empty and
each iteration consumes one answer. -/
lemma fieldIter_allNone (q : Nat → Option Nat) (hq : ∀ k, q k = none) :
    ∀ k n, fieldIter q k (none, n) = (none, n + k) := by
  intro k
  induction k with
  | zero =>
    intro n
    simp [fieldIter]
  | succ m ih =>
    intro n
    have hf : fetch1 q none n = (none, n + 1) := by simp [fetch1, hq n]
    have h1 : fieldIter q (m + 1) (none, n) = fieldIter q m (fetch1 q none n) := rfl
    rw [h1, hf, ih (n + 1)]
    have : n + 1 + m = n + (m + 1) := by omega
    rw [this]

/-- The five fields of `GetDeviceDetails` project onto independent
single-field iterations: error state. -/
lemma gdd_err (c : ConsoleOracle) :
    ((GetDeviceDetails c).error_state, (GetDeviceDetails c).errN) =
      fieldIter c.errQ 4 (none, 0) := rfl

lemma gdd_warn (c : ConsoleOracle) :
    ((GetDeviceDetails c).warning_state, (GetDeviceDetails c).warnN) =
      fieldIter c.warnQ 4 (none, 0) := rfl

lemma gdd_stat (c : ConsoleOracle) :
    ((GetDeviceDetails c).status, (GetDeviceDetails c).statN) =
      fieldIter c.statQ 4 (none, 0) := rfl

lemma gdd_msg (c : ConsoleOracle) :
    ((GetDeviceDetails c).messages, (GetDeviceDetails c).msgN) =
      fieldIter c.msgQ 4 (none, 0) := rfl

lemma gdd_det (c : ConsoleOracle) :
    ((GetDeviceDetails c).details, (GetDeviceDetails c).detN) =
      fieldIter c.detQ 4 (none, 0) := rfl

/-- Reduction of `SendClaimToken` for a device whose claim token and
automated claim url are assigned truthy values. -/
lemma sendClaimToken_reduce (d : Device) (resp : HResp) (ct acu : JVal)
    (hct : d.claim_token = Attr.val ct) (h1 : pyTruthy ct = true)
    (hacu : d.automated_claim_url = Attr.val acu) (h2 : pyTruthy acu = true) :
    SendClaimToken d resp =
      match resp.jsonFields with
      | none => Except.ok (false, 1)
      | some fields =>
        if pyTruthy (jlookupD fields "success") then Except.ok (true, 1)
        else Except.ok (false, 1) := by
  simp only [SendClaimToken, hct, hacu, h1, h2, if_true]

/-!
Claim theorems.
-/

/-- C1. The claim states that `GetPrivetClaimToken` terminates after at
most 5 polling attempts for every sequence of transport responses.
The code violates it: only the `pending_user_action` branch increments
`counter`, so a transport whose every response body contains neither
`"token"` nor `"error"` (here: the empty body) keeps the loop running
forever — for every fuel bound the loop is still unresolved, having
issued one request per iteration. -/
theorem GetPrivetClaimToken_blank_never_returns (d : Device)
    (gV : String → String → JVal) (fuel : Nat) :
    GetPrivetClaimToken d (fun _ => "") gV fuel = none :=
  claimTokenLoop_blank_stuck d gV fuel 0 0 (by decide)

/-- C2 counterexample. The claim states that `FinishPrivetRegister`
called before `SendClaimToken` has succeeded is rejected as a state
error rather than performing the completion call. On a fresh device —
whose claim token attribute does not even exist, so `SendClaimToken`
cannot have succeeded — `FinishPrivetRegister` nevertheless issues its
one HTTP completion request. -/
theorem FinishPrivetRegister_no_state_check :
    freshDevice.claim_token = Attr.unset ∧
    (FinishPrivetRegister freshDevice { jsonFields := none, ok := false }).2.2 = 1 :=
  ⟨rfl, rfl⟩

/-- C2 amended. `FinishPrivetRegister` performs no state check at all:
for every device, in whatever registration state, it issues exactly one
completion request and returns the transport outcome; no state error is
raised or returned. -/
theorem FinishPrivetRegister_always_calls (d : Device) (resp : HResp) :
    (FinishPrivetRegister d resp).2.2 = 1 ∧
    (FinishPrivetRegister d resp).2.1 = resp.ok := by
  obtain ⟨jf, ok⟩ := resp
  cases jf <;> simp [FinishPrivetRegister]

/-- C3. When every polled response body is
`{"error":"pending_user_action"}`, `GetPrivetClaimToken` returns
`False` having issued exactly 5 requests: each iteration increments the
counter, the fifth increment ends the loop, and no sixth request is
made. -/
theorem GetPrivetClaimToken_pending_exactly_five (d : Device)
    (resp : Nat → String) (gV : String → String → JVal) (fuel : Nat)
    (hresp : ∀ n, resp n = pendingBody) (hfuel : 6 ≤ fuel) :
    GetPrivetClaimToken d resp gV fuel = some (d, false, 5) := by
  have h := claimTokenLoop_pending d resp gV hresp fuel 0 0 (by omega)
  simpa using h

/-- C3 witness: the theorem applied to the constant pending transport
with fuel 6. -/
theorem GetPrivetClaimToken_pending_exactly_five_witness :
    GetPrivetClaimToken freshDevice (fun _ => pendingBody)
      (fun _ _ => JVal.null) 6 = some (freshDevice, false, 5) :=
  GetPrivetClaimToken_pending_exactly_five freshDevice (fun _ => pendingBody)
    (fun _ _ => JVal.null) 6 (fun _ => rfl) (by decide)

/-- C4. The claim states that `SendClaimToken` on a device that never
obtained a claim token returns an explicit failure without a network
call. The code violates it: `__init__` never assigns `claim_token` and
only the success branch of `GetPrivetClaimToken` does, so on such a
device the guard `if not self.claim_token` itself raises
`AttributeError` — a missing-attribute error, not a `False` result. -/
theorem SendClaimToken_fresh_attributeError (resp : HResp) :
    SendClaimToken freshDevice resp = Except.error PyErr.attributeError := rfl

/-- C5. The claim states that `UnRegister` on a device with no cloud
device id returns an explicit failure without issuing the delete call.
The code violates it: `__init__` never assigns `id` and only
`FinishPrivetRegister` (on finding a `device_id` key) does, so on such
a device the guard `if self.id` itself raises `AttributeError`; the
explicit no-call `False` branch is reachable only when `id` was
assigned a falsy value (as a previous successful `UnRegister` leaves
it). -/
theorem UnRegister_fresh_attributeError (validate : Bool) :
    UnRegister freshDevice validate = Except.error PyErr.attributeError := rfl

/-- C6. For a device whose claim token and automated claim url pass the
guards (so the request is issued), `SendClaimToken` returns `True` only
when the response is well-formed JSON whose `success` field is truthy,
and every well-formed JSON response whose `success` indicator is falsy
or absent (the lookup then defaults to `null`) yields the definite
result `False`, as does a non-JSON response. -/
theorem SendClaimToken_success_requires_indicator (d : Device)
    (resp : HResp) (ct acu : JVal)
    (hct : d.claim_token = Attr.val ct) (h1 : pyTruthy ct = true)
    (hacu : d.automated_claim_url = Attr.val acu) (h2 : pyTruthy acu = true) :
    (∀ n, SendClaimToken d resp = Except.ok (true, n) →
      ∃ fields, resp.jsonFields = some fields ∧
        pyTruthy (jlookupD fields "success") = true)
    ∧ (∀ fields, resp.jsonFields = some fields →
        pyTruthy (jlookupD fields "success") = false →
        SendClaimToken d resp = Except.ok (false, 1))
    ∧ (resp.jsonFields = none → SendClaimToken d resp = Except.ok (false, 1)) := by
  have hred := sendClaimToken_reduce d resp ct acu hct h1 hacu h2
  refine ⟨?_, ?_, ?_⟩
  · intro n h
    rcases hj : resp.jsonFields with _ | fields
    · have hcase : SendClaimToken d resp = Except.ok (false, 1) := by
        rw [hred, hj]
      rw [hcase] at h
      exact absurd h (by simp)
    · have hcase : SendClaimToken d resp =
          if pyTruthy (jlookupD fields "success") then
            Except.ok (true, 1) else Except.ok (false, 1) := by
        rw [hred, hj]
      by_cases hs : pyTruthy (jlookupD fields "success") = true
      · exact ⟨fields, rfl, hs⟩
      · rw [hcase, if_neg hs] at h
        exact absurd h (by simp)
  · intro fields hj hs
    have hcase : SendClaimToken d resp =
        if pyTruthy (jlookupD fields "success") then
          Except.ok (true, 1) else Except.ok (false, 1) := by
      rw [hred, hj]
    rw [hcase, if_neg (by simp [hs])]
  · intro hj
    rw [hred, hj]

/-- C6 witness: the theorem applied to a claimed device and a
well-formed JSON response whose `success` field is `false`. -/
theorem SendClaimToken_success_requires_indicator_witness :
    SendClaimToken claimedDevice
      { jsonFields := some [("success", JVal.bool false)], ok := true } =
      Except.ok (false, 1) :=
  (SendClaimToken_success_requires_indicator claimedDevice
      { jsonFields := some [("success", JVal.bool false)], ok := true }
      (JVal.str "ct") (JVal.str "http://acu") rfl (by decide) rfl
      (by decide)).2.1
    [("success", JVal.bool false)] rfl (by decide)

/-- C7. The claim states that `ParseCDD` returns `False` and sets no
fields on each of: an empty document, a document without a
`"printers"` key, and a document whose first printer lacks a
`"capabilities"` sub-key — with no unhandled exception. The first two
inputs behave as claimed, but the third does not: the code copies the
printer's other keys into `self.cdd` and then raises `KeyError` at
`cdd['printers'][0]['capabilities']`, so it neither returns `False`
nor leaves the fields unset. -/
theorem ParseCDD_failure_inputs :
    ParseCDD none [] = Except.ok (false, []) ∧
    ParseCDD (some (JVal.obj [("x", JVal.null)])) [] = Except.ok (false, []) ∧
    ParseCDD (some missingCapsDoc) [] =
      Except.error (PyErr.keyError, [("name", JVal.str "X")]) :=
  ⟨rfl, rfl, rfl⟩

/-- C8. `GetDeviceDetails` makes at most 4 attempts at fetching each of
the five snapshot fields; inside one batch iteration a field that is
already populated (truthy) is fetched no further and keeps its value;
and a field for which the console always answers falsy is left empty
(`none`) at the end, the function returning normally. -/
theorem GetDeviceDetails_bounded_guarded (c : ConsoleOracle) :
    ((GetDeviceDetails c).errN ≤ 4 ∧ (GetDeviceDetails c).warnN ≤ 4 ∧
     (GetDeviceDetails c).statN ≤ 4 ∧ (GetDeviceDetails c).msgN ≤ 4 ∧
     (GetDeviceDetails c).detN ≤ 4)
    ∧ (∀ s : DetailsState,
        (s.error_state.isSome = true →
          (detailsStep c s).error_state = s.error_state ∧
          (detailsStep c s).errN = s.errN) ∧
        (s.warning_state.isSome = true →
          (detailsStep c s).warning_state = s.warning_state ∧
          (detailsStep c s).warnN = s.warnN) ∧
        (s.status.isSome = true →
          (detailsStep c s).status = s.status ∧
          (detailsStep c s).statN = s.statN) ∧
        (s.messages.isSome = true →
          (detailsStep c s).messages = s.messages ∧
          (detailsStep c s).msgN = s.msgN) ∧
        (s.details.isSome = true →
          (detailsStep c s).details = s.details ∧
          (detailsStep c s).detN = s.detN))
    ∧ (((∀ k, c.errQ k = none) → (GetDeviceDetails c).error_state = none) ∧
       ((∀ k, c.warnQ k = none) → (GetDeviceDetails c).warning_state = none) ∧
       ((∀ k, c.statQ k = none) → (GetDeviceDetails c).status = none) ∧
       ((∀ k, c.msgQ k = none) → (GetDeviceDetails c).messages = none) ∧
       ((∀ k, c.detQ k = none) → (GetDeviceDetails c).details = none)) := by
  refine ⟨⟨?_, ?_, ?_, ?_, ?_⟩, fun s => ⟨?_, ?_, ?_, ?_, ?_⟩,
    ⟨?_, ?_, ?_, ?_, ?_⟩⟩
  · have h := congrArg Prod.snd (gdd_err c)
    have hb := fieldIter_snd_le c.errQ 4 (none, 0)
    simp only at h
    omega
  · have h := congrArg Prod.snd (gdd_warn c)
    have hb := fieldIter_snd_le c.warnQ 4 (none, 0)
    simp only at h
    omega
  · have h := congrArg Prod.snd (gdd_stat c)
    have hb := fieldIter_snd_le c.statQ 4 (none, 0)
    simp only at h
    omega
  · have h := congrArg Prod.snd (gdd_msg c)
    have hb := fieldIter_snd_le c.msgQ 4 (none, 0)
    simp only at h
    omega
  · have h := congrArg Prod.snd (gdd_det c)
    have hb := fieldIter_snd_le c.detQ 4 (none, 0)
    simp only at h
    omega
  · intro hs
    have h := fetch1_isSome c.errQ s.error_state s.errN hs
    exact ⟨by simp [detailsStep, h], by simp [detailsStep, h]⟩
  · intro hs
    have h := fetch1_isSome c.warnQ s.warning_state s.warnN hs
    exact ⟨by simp [detailsStep, h], by simp [detailsStep, h]⟩
  · intro hs
    have h := fetch1_isSome c.statQ s.status s.statN hs
    exact ⟨by simp [detailsStep, h], by simp [detailsStep, h]⟩
  · intro hs
    have h := fetch1_isSome c.msgQ s.messages s.msgN hs
    exact ⟨by simp [detailsStep, h], by simp [detailsStep, h]⟩
  · intro hs
    have h := fetch1_isSome c.detQ s.details s.detN hs
    exact ⟨by simp [detailsStep, h], by simp [detailsStep, h]⟩
  · intro hq
    have h := congrArg Prod.fst (gdd_err c)
    rw [fieldIter_allNone c.errQ hq 4 0] at h
    simpa using h
  · intro hq
    have h := congrArg Prod.fst (gdd_warn c)
    rw [fieldIter_allNone c.warnQ hq 4 0] at h
    simpa using h
  · intro hq
    have h := congrArg Prod.fst (gdd_stat c)
    rw [fieldIter_allNone c.statQ hq 4 0] at h
    simpa using h
  · intro hq
    have h := congrArg Prod.fst (gdd_msg c)
    rw [fieldIter_allNone c.msgQ hq 4 0] at h
    simpa using h
  · intro hq
    have h := congrArg Prod.fst (gdd_det c)
    rw [fieldIter_allNone c.detQ hq 4 0] at h
    simpa using h

/-- C8 witness: the theorem applied to the always-falsy console and,
for the guard conjunct, to a state with a populated error field. -/
theorem GetDeviceDetails_bounded_guarded_witness :
    (GetDeviceDetails quietConsole).errN ≤ 4 ∧
    (GetDeviceDetails quietConsole).error_state = none ∧
    (detailsStep quietConsole someState).error_state = someState.error_state ∧
    (detailsStep quietConsole someState).errN = someState.errN :=
  ⟨(GetDeviceDetails_bounded_guarded quietConsole).1.1,
   (GetDeviceDetails_bounded_guarded quietConsole).2.2.1 (fun _ => rfl),
   ((GetDeviceDetails_bounded_guarded quietConsole).2.1 someState).1 rfl |>.1,
   ((GetDeviceDetails_bounded_guarded quietConsole).2.1 someState).1 rfl |>.2⟩

/-- C9. `GetPrivetClaimToken` branches on raw substring containment:
whenever the body of the first response contains the characters
`token` anywhere — the extraction oracle and any JSON structure being
irrelevant — the success branch fires on that very attempt, assigning
the three claim fields from `GetValue` and returning `True` after one
request. -/
theorem GetPrivetClaimToken_token_substring (d : Device)
    (resp : Nat → String) (gV : String → String → JVal) (fuel : Nat)
    (hfuel : 1 ≤ fuel) (htok : pyIn "token" (resp 0) = true) :
    GetPrivetClaimToken d resp gV fuel =
      some (setClaimFields d gV (resp 0), true, 1) := by
  obtain ⟨f, rfl⟩ : ∃ f, fuel = f + 1 := ⟨fuel - 1, by omega⟩
  simp [GetPrivetClaimToken, claimTokenLoop, htok]

/-- C9 witness: the theorem applied to the body
`{"error":"token_expired"}`, which contains the characters `token`
although no JSON field named `token` exists in it. -/
theorem GetPrivetClaimToken_token_substring_witness :
    GetPrivetClaimToken freshDevice (fun _ => tokenErrBody)
      (fun _ _ => JVal.null) 1 =
      some (setClaimFields freshDevice (fun _ _ => JVal.null) tokenErrBody,
        true, 1) :=
  GetPrivetClaimToken_token_substring freshDevice (fun _ => tokenErrBody)
    (fun _ _ => JVal.null) 1 (by decide) (by decide)

/-- C10. `ParseCDD` indexes `printers[0]` without an emptiness check:
on every document whose `"printers"` key maps to the empty list —
whatever other keys the document carries, and whatever `self.cdd` held
on entry — the indexing error branch is reached (`IndexError`, with
`self.cdd` untouched), so no normal `False` return is produced for any
such input. -/
theorem ParseCDD_empty_printers_indexError (fields : List (String × JVal))
    (c : List (String × JVal))
    (h : jlookup fields "printers" = some (JVal.arr [])) :
    ParseCDD (some (JVal.obj fields)) c =
      Except.error (PyErr.indexError, c) := by
  simp only [ParseCDD, h]

/-- C10 witness: the theorem applied to the document whose only key is
`printers`, mapped to the empty list, with an empty `self.cdd`. -/
theorem ParseCDD_empty_printers_indexError_witness :
    ParseCDD (some (JVal.obj [("printers", JVal.arr [])])) [] =
      Except.error (PyErr.indexError, []) :=
  ParseCDD_empty_printers_indexError [("printers", JVal.arr [])] [] rfl
